import Mathlib

/-!
Verification of the brightsky parser core (`brightsky/parsers.py`).

The Python source is shallowly embedded: strings for raw cells and
filenames, exact decimal numbers (`Dec`) for Python floats, `ℕ` for
parsed UTC instants (the `strptime`/`dateutil` outputs, of which only
the total order matters to the parsing logic), `Except String` for
Python exceptions (the error string names the exception class raised by
the original code), and `Option Dec` for "float or None" quantity
values.

Every numeric value this program handles is an exact decimal: the raw
cells are decimal literals and the only arithmetic is multiplication by
the integer factors 60 and 100, addition of 273.15, and rounding to two
decimal places, none of which leaves the decimals exactly representable
in a float's precision range.  `Dec` represents `m / 10 ^ e` exactly;
the code never branches on a float value, so the embedding is faithful
on these decimals.
-/

namespace Brightsky

/-- An exact decimal number `m / 10 ^ e`, the embedding of the Python
float values occurring in this program. -/
structure Dec where
  m : ℤ
  e : ℕ
  deriving Repr, DecidableEq

namespace Dec

/-- The rational value represented. -/
def toRat (d : Dec) : ℚ := (d.m : ℚ) / (10 ^ d.e : ℕ)

/-- Exact float addition on this program's decimals. -/
def add (a b : Dec) : Dec := ⟨a.m * 10 ^ b.e + b.m * 10 ^ a.e, a.e + b.e⟩

/-- Exact float multiplication on this program's decimals. -/
def mul (a b : Dec) : Dec := ⟨a.m * b.m, a.e + b.e⟩

/-- Multiplication by a Python `int` (the conversion factors are the
integer literals `60` and `100`). -/
def mulInt (a : Dec) (k : ℤ) : Dec := ⟨a.m * k, a.e⟩

theorem toRat_add (a b : Dec) : (a.add b).toRat = a.toRat + b.toRat := by
  simp only [toRat, add, pow_add]
  push_cast
  have ha : ((10 : ℚ) ^ a.e) ≠ 0 := by positivity
  have hb : ((10 : ℚ) ^ b.e) ≠ 0 := by positivity
  field_simp

theorem toRat_mulInt (a : Dec) (k : ℤ) : (a.mulInt k).toRat = a.toRat * k := by
  simp only [toRat, mulInt]
  push_cast
  ring

end Dec

/-- Python `round(x, 2)` on the decimal `x`: the nearest multiple of
`1/100`, ties to even. -/
def pyRound2 (d : Dec) : Dec :=
  let N : ℤ := d.m * 100
  let D : ℤ := (10 : ℤ) ^ d.e
  let f : ℤ := Int.fdiv N D
  let rem : ℤ := N - f * D
  let n : ℤ :=
    if 2 * rem < D then f
    else if 2 * rem > D then f + 1
    else if f % 2 = 0 then f else f + 1
  ⟨n, 2⟩

/-! ## Python string primitives: `str.strip`, `float(...)` -/

/-- Python `str.strip()` on a character list: drop whitespace from both ends. -/
def pyStripL (l : List Char) : List Char :=
  ((l.dropWhile Char.isWhitespace).reverse.dropWhile Char.isWhitespace).reverse

/-- Python `str.strip()`. -/
def pyStrip (s : String) : String := ⟨pyStripL s.data⟩

/-- Numeric value of a digit run. -/
def natOfDigits (l : List Char) : ℕ :=
  l.foldl (fun acc c => 10 * acc + (c.toNat - 48)) 0

/-- Decimal-literal fragment of Python `float(...)`: surrounding
whitespace, then an optional sign followed by `digits`, `digits.digits`,
`digits.` or `.digits`.  (The exponent/`inf`/`nan` forms of `float` are
never exercised by this data format.)  Returns `none` where Python
raises `ValueError`. -/
def pyFloatCore (l : List Char) : Option Dec :=
  let parseUnsigned : List Char → Option Dec := fun u =>
    match u.splitOn '.' with
    | [ip] =>
        if ip ≠ [] ∧ ip.all Char.isDigit then some ⟨natOfDigits ip, 0⟩ else none
    | [ip, fp] =>
        if (ip ≠ [] ∨ fp ≠ []) ∧ ip.all Char.isDigit ∧ fp.all Char.isDigit then
          some ⟨natOfDigits ip * 10 ^ fp.length + natOfDigits fp, fp.length⟩
        else none
    | _ => none
  match pyStripL l with
  | '-' :: rest => (parseUnsigned rest).map fun d => ⟨-d.m, d.e⟩
  | '+' :: rest => parseUnsigned rest
  | rest => parseUnsigned rest

/-- Python `float(s)`, returning `none` where Python raises `ValueError`. -/
def pyFloat (s : String) : Option Dec := pyFloatCore s.data

/-! ## The output record

Python emits records as dicts.  The fixed metadata keys become structure
fields; the per-quantity entries (whose key set depends on the parser
profile) are kept as an ordered association list, mirroring dict
insertion order. -/

structure Record where
  observation_type : String
  source : String
  station_id : String
  lat : Dec
  lon : Dec
  height : Dec
  timestamp : ℕ
  quantities : List (String × Option Dec)
  deriving Repr, DecidableEq

/-! ## MOSMIXParser (forecast path)

A `Placemark` station block is embedded as the text nodes the parser
reads from it: the `name` text, the `coordinates` text, and the list of
`Forecast` nodes as `(elementName attribute, value text)` pairs in
document order. -/

namespace MOSMIXParser

/-- `MOSMIXParser.ELEMENTS`, in dict insertion order. -/
def ELEMENTS : List (String × String) :=
  [("TTT", "temperature"),
   ("DD", "wind_direction"),
   ("FF", "wind_speed"),
   ("RR1c", "precipitation"),
   ("SunD1", "sunshine"),
   ("PPPP", "pressure_msl")]

structure PlacemarkSel where
  name : String
  coordinates : String
  forecasts : List (String × String)
  deriving Repr, DecidableEq

/-- The decoded KML document, as the selector accesses it: the already
parsed timestamp axis, the `ProductID` and `IssueTime` text nodes and the
`Placemark` blocks in document order. -/
structure MOSMIXDocument where
  timestamps : List ℕ
  productId : String
  issueTime : String
  placemarks : List PlacemarkSel
  deriving Repr, DecidableEq

/-- `parse_source`: colon-join of the `ProductID` and `IssueTime` texts. -/
def parse_source (doc : MOSMIXDocument) : String :=
  doc.productId ++ ":" ++ doc.issueTime

/-- `extract_first` on `Forecast[elementName="el"] value::text`: the first
forecast node carrying the requested element name, `none` when absent. -/
def extractForecast (forecasts : List (String × String)) (el : String) :
    Option String :=
  (forecasts.find? (fun p => p.1 = el)).map Prod.snd

/-- `re.sub(r'\s+', '\n', values_str.strip()).splitlines()`: the
whitespace-separated tokens of the value text. -/
def valueTokens (valuesStr : String) : List String :=
  ((valuesStr.data.splitOnP Char.isWhitespace).filter (· ≠ [])).map
    fun l => (⟨l⟩ : String)

/-- `csv.reader` on a single token line: `row[0]` is the part before the
first comma. -/
def csvFirstField (tok : String) : String :=
  match tok.data.splitOn ',' with
  | [] => ""
  | f :: _ => ⟨f⟩

/-- One list-comprehension element:
`None if row[0] == '-' else float(row[0])`. -/
def parseValueToken (tok : String) : Except String (Option Dec) :=
  let f := csvFirstField tok
  if f = "-" then .ok none
  else match pyFloat f with
    | some q => .ok (some q)
    | none => .error "ValueError"

/-- The whole list comprehension over the tokens of one value text. -/
def parseValueList : List String → Except String (List (Option Dec))
  | [] => .ok []
  | tok :: rest =>
      match parseValueToken tok with
      | .error e => .error e
      | .ok v =>
          match parseValueList rest with
          | .error e => .error e
          | .ok vs => .ok (v :: vs)

/-- Extraction of one element column for one station: look up the value
text (`None.strip()` raises `AttributeError` when the element is absent),
tokenize and parse it, then `assert len(...) == len(timestamps)`. -/
def parseColumn (sel : PlacemarkSel) (el : String) (T : ℕ) :
    Except String (List (Option Dec)) :=
  match extractForecast sel.forecasts el with
  | none => .error "AttributeError"
  | some valuesStr =>
      match parseValueList (valueTokens valuesStr) with
      | .error e => .error e
      | .ok vals =>
          if vals.length = T then .ok vals else .error "AssertionError"

/-- The `for element, column in self.ELEMENTS.items()` loop: the columns
in dict order, each length-checked. -/
def parseColumns (sel : PlacemarkSel) (T : ℕ) :
    List (String × String) → Except String (List (String × List (Option Dec)))
  | [] => .ok []
  | (el, column) :: rest =>
      match parseColumn sel el T with
      | .error e => .error e
      | .ok vals =>
          match parseColumns sel T rest with
          | .error e => .error e
          | .ok restCols => .ok ((column, vals) :: restCols)

/-- Python `zip(*records.values())` followed by
`{**base_record, **dict(zip(records, row))}`: one record per index of the
timestamp list, pairing each timestamp with the column values at that
index.  `zip` truncates at the shortest list; the columns were already
asserted to have the timestamp axis length. -/
def zipRecords (base : ℕ → Record) (timestamps : List ℕ)
    (columns : List (String × List (Option Dec))) : List Record :=
  match timestamps with
  | [] => []
  | t :: ts =>
      if columns.all (fun c => c.2 ≠ []) then
        { base t with
          timestamp := t,
          quantities := columns.map fun c => (c.1, c.2.headI) } ::
        zipRecords base ts (columns.map fun c => (c.1, c.2.tail))
      else []

/-- `MOSMIXParser.parse_station`: unpack
`lat, lon, height = ...coordinates...split(',')` (a `ValueError` unless
there are exactly three components), extract the six element columns,
convert the coordinate components with `float`, and zip everything into
per-timestamp records. -/
def parse_station (sel : PlacemarkSel) (timestamps : List ℕ)
    (source : String) : Except String (List Record) :=
  let station_id := sel.name
  match (sel.coordinates.data.splitOn ',').map (fun l => (⟨l⟩ : String)) with
  | [c1, c2, c3] =>
      match parseColumns sel timestamps.length ELEMENTS with
      | .error e => .error e
      | .ok columns =>
      match pyFloat c1, pyFloat c2, pyFloat c3 with
      | some lat, some lon, some height =>
          let base : ℕ → Record := fun t =>
            { observation_type := "forecast",
              source := source,
              station_id := station_id,
              lat := lat, lon := lon, height := height,
              timestamp := t, quantities := [] }
          .ok (zipRecords base timestamps columns)
      | _, _, _ => .error "ValueError"
  | _ => .error "ValueError"

/-- The `for ... in station_selectors` loop of `MOSMIXParser.parse`. -/
def parseStations (timestamps : List ℕ) (source : String) :
    List PlacemarkSel → Except String (List Record)
  | [] => .ok []
  | sel :: rest =>
      match parse_station sel timestamps source with
      | .error e => .error e
      | .ok recs =>
          match parseStations timestamps source rest with
          | .error e => .error e
          | .ok restRecs => .ok (recs ++ restRecs)

/-- `MOSMIXParser.parse`, run to completion on a decoded document. -/
def parse (doc : MOSMIXDocument) : Except String (List Record) :=
  parseStations doc.timestamps (parse_source doc) doc.placemarks

end MOSMIXParser

/-! ## ObservationsParser (observation path)

The zip archive is embedded as its member name list together with the
decoded rows of the two members the parser reads: the geolocation
metadata member (`Metadaten_Geographie_<id>.txt`) and the single
`produkt_`-prefixed product member.  CSV rows are embedded as the parsed
row dicts `csv.DictReader` hands to the loop bodies: the date fields as
already-`strptime`d instants (`ℕ`), the coordinate fields as already
`float`ed values (these conversions are incidental to the claims), and
the quantity cells as their raw strings. -/

namespace ObservationsParser

/-- One row of the `Metadaten_Geographie` member, with the fields
`parse_lat_lon_history` reads. -/
structure GeoRow where
  von_datum : ℕ
  geogrLaenge : Dec
  geogrBreite : Dec
  stationshoehe : Dec
  deriving Repr, DecidableEq

/-- One row of the product member: the `strptime`-parsed `MESS_DATUM`
instant plus the raw cells keyed by column header. -/
structure ObsRow where
  mess_datum : ℕ
  cells : List (String × String)
  deriving Repr, DecidableEq

structure ObsArchive where
  namelist : List String
  geoRows : List GeoRow
  productRows : List ObsRow
  deriving Repr, DecidableEq

/-- `re.match(r'Metadaten_Geographie_(\d+)\.txt', filename)` on the
character list after the literal prefix: the greedy digit run must be
nonempty and be followed by `.txt` (`re.match` anchors only the start,
so trailing characters are allowed).  Returns the captured digit run. -/
def matchGeoName (fn : List Char) : Option (List Char) :=
  let pre := "Metadaten_Geographie_".data
  if pre.isPrefixOf fn then
    let rest := fn.drop pre.length
    let digits := rest.takeWhile Char.isDigit
    if digits ≠ [] ∧ ".txt".data.isPrefixOf (rest.drop digits.length) then
      some digits
    else none
  else none

/-- `ObservationsParser.parse_station_id`: the capture of the first
matching member name, else `ValueError`. -/
def parse_station_id (namelist : List String) : Except String String :=
  match namelist.findSome? (fun fn => matchGeoName fn.data) with
  | some digits => .ok ⟨digits⟩
  | none => .error "ValueError"

/-- Python dict assignment `d[k] = v` on an insertion-ordered
association list: replace in place when the key exists, else append. -/
def dictInsert (k : ℕ) (v : Dec × Dec × Dec) :
    List (ℕ × (Dec × Dec × Dec)) → List (ℕ × (Dec × Dec × Dec))
  | [] => [(k, v)]
  | (k', v') :: t => if k' = k then (k, v) :: t else (k', v') :: dictInsert k v t

/-- `ObservationsParser.parse_lat_lon_history`: fold the metadata rows
into the `history` dict; the stored triple is
`(Geogr.Laenge, Geogr.Breite, Stationshoehe)` in source order. -/
def parse_lat_lon_history (rows : List GeoRow) : List (ℕ × (Dec × Dec × Dec)) :=
  rows.foldl
    (fun h r => dictInsert r.von_datum (r.geogrLaenge, r.geogrBreite, r.stationshoehe) h)
    []

/-- The geolocation scan of `parse_records`:
`for date, v in lat_lon_history.items(): if date > timestamp: break;
lat, lon, height = v`.  `acc` is the binding of `lat, lon, height` left
over from earlier loop runs (`none` when they are still unbound);
the returned value is their binding after the scan. -/
def resolve (history : List (ℕ × (Dec × Dec × Dec))) (timestamp : ℕ)
    (acc : Option (Dec × Dec × Dec)) : Option (Dec × Dec × Dec) :=
  match history with
  | [] => acc
  | (date, v) :: t => if date > timestamp then acc else resolve t timestamp (some v)

/-- `row[element_key]` on the row dict (`KeyError` when absent). -/
def rowCell (row : ObsRow) (key : String) : Except String String :=
  match row.cells.find? (fun p => p.1 = key) with
  | some p => .ok p.2
  | none => .error "KeyError"

/-- One entry of the `parse_elements` dict comprehension:
`float(row[element_key]) if row[element_key].strip() != '-999' else None`. -/
def parseElementCell (row : ObsRow) (key : String) :
    Except String (Option Dec) :=
  match rowCell row key with
  | .error e => .error e
  | .ok cell =>
      if pyStrip cell = "-999" then .ok none
      else match pyFloat cell with
        | some q => .ok (some q)
        | none => .error "ValueError"

/-- The dict comprehension of `ObservationsParser.parse_elements`. -/
def parseElementDict (row : ObsRow) :
    List (String × String) → Except String (List (String × Option Dec))
  | [] => .ok []
  | (element, key) :: rest =>
      match parseElementCell row key with
      | .error e => .error e
      | .ok v =>
          match parseElementDict row rest with
          | .error e => .error e
          | .ok vs => .ok ((element, v) :: vs)

/-- Dict read-and-update `elements[element] = f elements[element]` used by
the conversion loop; `KeyError` when the key is absent. -/
def dictUpdate (elems : List (String × Option Dec)) (element : String)
    (f : Option Dec → Except String (Option Dec)) :
    Except String (List (String × Option Dec)) :=
  match elems with
  | [] => .error "KeyError"
  | (k, v) :: t =>
      if k = element then
        match f v with
        | .error e => .error e
        | .ok v' => .ok ((k, v') :: t)
      else
        match dictUpdate t element f with
        | .error e => .error e
        | .ok t' => .ok ((k, v) :: t')

/-- The conversion loop of `ObservationsParser.parse_elements`:
`elements[element] *= factor; elements[element] = round(..., 2)`.
Multiplying `None` by a number is a Python `TypeError`. -/
def applyConversions (elems : List (String × Option Dec)) :
    List (String × ℤ) → Except String (List (String × Option Dec))
  | [] => .ok elems
  | (element, factor) :: rest =>
      match dictUpdate elems element (fun v =>
        match v with
        | none => .error "TypeError"
        | some x => .ok (some (pyRound2 (x.mulInt factor)))) with
      | .error e => .error e
      | .ok elems' => applyConversions elems' rest

/-- `ObservationsParser.parse_elements`, parameterized by the subclass
attributes `elements` and `conversion_factors`. -/
def parse_elements (elements : List (String × String))
    (conversion_factors : List (String × ℤ)) (row : ObsRow) :
    Except String (List (String × Option Dec)) :=
  match parseElementDict row elements with
  | .error e => .error e
  | .ok elems => applyConversions elems conversion_factors

/-- `TemperatureObservationsParser.parse_elements`: the inherited step,
then `elements['temperature'] = round(elements['temperature'] + 273.15, 2)`
(adding a number to `None` is a Python `TypeError`). -/
def temperature_parse_elements (row : ObsRow) :
    Except String (List (String × Option Dec)) :=
  match parse_elements [("temperature", "TT_TU")] [] row with
  | .error e => .error e
  | .ok elems =>
      dictUpdate elems "temperature" fun v =>
        match v with
        | none => .error "TypeError"
        | some x => .ok (some (pyRound2 (x.add ⟨27315, 2⟩)))

/-- The per-row loop of `ObservationsParser.parse_records`.  `binding`
threads the Python local variables `lat, lon, height` across rows: they
survive from one row to the next, and reading them while still unbound is
an `UnboundLocalError`. -/
def parseRecordsGo (parseElems : ObsRow → Except String (List (String × Option Dec)))
    (station_id filename : String) (history : List (ℕ × (Dec × Dec × Dec)))
    (binding : Option (Dec × Dec × Dec)) :
    List ObsRow → Except String (List Record)
  | [] => .ok []
  | row :: rest =>
      match resolve history row.mess_datum binding with
      | none => .error "UnboundLocalError"
      | some (lat, lon, height) =>
          match parseElems row with
          | .error e => .error e
          | .ok elems =>
              match parseRecordsGo parseElems station_id filename history
                  (some (lat, lon, height)) rest with
              | .error e => .error e
              | .ok restRecs =>
                  .ok ({ observation_type := "recent",
                         source := "Observations:Recent:" ++ filename,
                         station_id := station_id,
                         lat := lat, lon := lon, height := height,
                         timestamp := row.mess_datum,
                         quantities := elems } :: restRecs)

/-- `ObservationsParser.parse_records`: select the single `produkt_`
member (`AssertionError` otherwise), then run the row loop with
`lat, lon, height` initially unbound. -/
def parse_records (parseElems : ObsRow → Except String (List (String × Option Dec)))
    (zf : ObsArchive) (station_id : String)
    (history : List (ℕ × (Dec × Dec × Dec))) : Except String (List Record) :=
  match zf.namelist.filter (fun fn => "produkt_".data.isPrefixOf fn.data) with
  | [filename] => parseRecordsGo parseElems station_id filename history none zf.productRows
  | _ => .error "AssertionError"

/-- `ObservationsParser.parse`, run to completion: station id, then the
geolocation history (`KeyError` when the metadata member named by the
captured id is absent from the archive), then the records. -/
def parse (parseElems : ObsRow → Except String (List (String × Option Dec)))
    (zf : ObsArchive) : Except String (List Record) :=
  match parse_station_id zf.namelist with
  | .error e => .error e
  | .ok station_id =>
      if ("Metadaten_Geographie_" ++ station_id ++ ".txt") ∈ zf.namelist then
        parse_records parseElems zf station_id (parse_lat_lon_history zf.geoRows)
      else .error "KeyError"

end ObservationsParser

/-! ## The five quantity profiles (subclass attributes) -/

namespace TemperatureObservationsParser

def elements : List (String × String) := [("temperature", "TT_TU")]

def parse_elements : ObservationsParser.ObsRow →
    Except String (List (String × Option Dec)) :=
  ObservationsParser.temperature_parse_elements

def parse : ObservationsParser.ObsArchive → Except String (List Record) :=
  ObservationsParser.parse parse_elements

end TemperatureObservationsParser

namespace PrecipitationObservationsParser

def elements : List (String × String) := [("precipitation", "  R1")]

def parse_elements : ObservationsParser.ObsRow →
    Except String (List (String × Option Dec)) :=
  ObservationsParser.parse_elements elements []

def parse : ObservationsParser.ObsArchive → Except String (List Record) :=
  ObservationsParser.parse parse_elements

end PrecipitationObservationsParser

namespace WindObservationsParser

def elements : List (String × String) :=
  [("wind_speed", "   F"), ("wind_direction", "   D")]

def parse_elements : ObservationsParser.ObsRow →
    Except String (List (String × Option Dec)) :=
  ObservationsParser.parse_elements elements []

def parse : ObservationsParser.ObsArchive → Except String (List Record) :=
  ObservationsParser.parse parse_elements

end WindObservationsParser

namespace SunshineObservationsParser

def elements : List (String × String) := [("sunshine", "SD_SO")]

def conversion_factors : List (String × ℤ) := [("sunshine", 60)]

def parse_elements : ObservationsParser.ObsRow →
    Except String (List (String × Option Dec)) :=
  ObservationsParser.parse_elements elements conversion_factors

def parse : ObservationsParser.ObsArchive → Except String (List Record) :=
  ObservationsParser.parse parse_elements

end SunshineObservationsParser

namespace PressureObservationsParser

def elements : List (String × String) := [("pressure_msl", "  P0")]

def conversion_factors : List (String × ℤ) := [("pressure_msl", 100)]

def parse_elements : ObservationsParser.ObsRow →
    Except String (List (String × Option Dec)) :=
  ObservationsParser.parse_elements elements conversion_factors

def parse : ObservationsParser.ObsArchive → Except String (List Record) :=
  ObservationsParser.parse parse_elements

end PressureObservationsParser

/-! ## Claim theorems -/

instance {ε α : Type _} [DecidableEq ε] [DecidableEq α] :
    DecidableEq (Except ε α) := fun x y =>
  match x, y with
  | .ok a, .ok b => if h : a = b then .isTrue (by rw [h]) else .isFalse (by simp [h])
  | .error e, .error f => if h : e = f then .isTrue (by rw [h]) else .isFalse (by simp [h])
  | .ok _, .error _ => .isFalse (by simp)
  | .error _, .ok _ => .isFalse (by simp)

/-- **C1.** The claim states that a `-999` sentinel cell always yields an
absent quantity and that the scale/offset/rounding conversion is applied
only to present values, so that a sentinel cell in a profile with a
conversion factor (sunshine, pressure) or a post-conversion (temperature)
still yields an absent value rather than an error.  The code contradicts
this: the conversion loop executes `elements[element] *= factor`
(resp. `elements['temperature'] + 273.15`) unconditionally, so a `None`
element raises `TypeError`.  This theorem evaluates the code on sentinel
cells: the sunshine, pressure and temperature profiles raise `TypeError`,
while a profile without conversions (wind) does produce the absent
value. -/
theorem C1_sentinel_under_conversion_raises :
    SunshineObservationsParser.parse_elements ⟨0, [("SD_SO", "-999")]⟩ =
      .error "TypeError" ∧
    PressureObservationsParser.parse_elements ⟨0, [("  P0", " -999")]⟩ =
      .error "TypeError" ∧
    TemperatureObservationsParser.parse_elements ⟨0, [("TT_TU", "-999")]⟩ =
      .error "TypeError" ∧
    WindObservationsParser.parse_elements ⟨0, [("   F", "-999"), ("   D", "90")]⟩ =
      .ok [("wind_speed", none), ("wind_direction", some ⟨90, 0⟩)] := by
  refine ⟨?_, ?_, ?_, ?_⟩ <;> rfl

/-- **C2.** The claim states that a product row timestamped before the
first geolocation-history entry makes parsing fail with `ParseError`, and
in particular that no record is ever emitted with a stale geolocation.
The code contradicts this: the loop variables `lat, lon, height` survive
from the previous row, so the parse here succeeds and emits, for the row
at instant 50 — which predates the first history entry (instant 100) —
a record carrying the binding left over from the previous row (the entry
effective at instant 120), instead of raising anything. -/
theorem C2_stale_geolocation_emitted :
    WindObservationsParser.parse
      { namelist := ["Metadaten_Geographie_04911.txt", "produkt_ff_x.txt"],
        geoRows := [⟨100, ⟨1, 0⟩, ⟨2, 0⟩, ⟨3, 0⟩⟩, ⟨120, ⟨4, 0⟩, ⟨5, 0⟩, ⟨6, 0⟩⟩],
        productRows := [⟨130, [("   F", "1.6"), ("   D", "80")]⟩,
                        ⟨50, [("   F", "1.5"), ("   D", "130")]⟩] } =
    .ok [{ observation_type := "recent",
           source := "Observations:Recent:produkt_ff_x.txt",
           station_id := "04911",
           lat := ⟨4, 0⟩, lon := ⟨5, 0⟩, height := ⟨6, 0⟩, timestamp := 130,
           quantities := [("wind_speed", some ⟨16, 1⟩),
                          ("wind_direction", some ⟨80, 0⟩)] },
         { observation_type := "recent",
           source := "Observations:Recent:produkt_ff_x.txt",
           station_id := "04911",
           lat := ⟨4, 0⟩, lon := ⟨5, 0⟩, height := ⟨6, 0⟩, timestamp := 50,
           quantities := [("wind_speed", some ⟨15, 1⟩),
                          ("wind_direction", some ⟨130, 0⟩)] }] := by
  rfl

/-- **C6.** The claim states that the first component of the
comma-separated coordinate triple becomes the record's longitude and the
second its latitude.  The code contradicts this: it unpacks
`lat, lon, height = ...split(',')`, so the first component lands in the
record's `lat` field.  Evaluated on the coordinate text
`"19.02,74.52,16.0"` (the repository's own fixture for station 01028,
whose actual position is latitude 74.52, longitude 19.02), the emitted
record has `lat = 19.02` and `lon = 74.52`. -/
theorem C6_first_coordinate_component_becomes_lat :
    (MOSMIXParser.parse_station
        { name := "01028",
          coordinates := "19.02,74.52,16.0",
          forecasts := [("TTT", "-12.7"), ("DD", "330"), ("FF", "8.75"),
                        ("RR1c", "0.1"), ("SunD1", "-"), ("PPPP", "99000")] }
        [0] "MOSMIX:2020-03-13T09:00:00.000Z").map
      (List.map fun r => (r.lat, r.lon, r.height)) =
    .ok [(⟨1902, 2⟩, ⟨7452, 2⟩, ⟨160, 1⟩)] := by
  rfl

/-- **C9.** Parsing is deterministic: the embedded parse functions are
pure functions of the decoded archive content, so two invocations over
the same content yield identical record sequences on both the forecast
and the observation path. -/
theorem C9_parse_deterministic
    (doc : MOSMIXParser.MOSMIXDocument)
    (parseElems : ObservationsParser.ObsRow →
      Except String (List (String × Option Dec)))
    (zf : ObservationsParser.ObsArchive) :
    MOSMIXParser.parse doc = MOSMIXParser.parse doc ∧
    ObservationsParser.parse parseElems zf = ObservationsParser.parse parseElems zf :=
  ⟨rfl, rfl⟩

/-! ### C10: the geolocation history keeps one entry per distinct date -/

namespace ObservationsParser

theorem dictInsert_map_fst (k : ℕ) (v : Dec × Dec × Dec)
    (h : List (ℕ × (Dec × Dec × Dec))) :
    (dictInsert k v h).map Prod.fst =
      if k ∈ h.map Prod.fst then h.map Prod.fst
      else h.map Prod.fst ++ [k] := by
  induction h with
  | nil => simp [dictInsert]
  | cons p t ih =>
      obtain ⟨k', v'⟩ := p
      by_cases hk : k' = k
      · subst hk
        simp [dictInsert]
      · simp only [dictInsert, if_neg hk, List.map_cons, ih]
        have hne : ¬ k = k' := fun h => hk h.symm
        by_cases hmem : k ∈ t.map Prod.fst
        · simp [hmem, hne]
        · simp [hmem, hne]

theorem dictInsert_nodup (k : ℕ) (v : Dec × Dec × Dec)
    (h : List (ℕ × (Dec × Dec × Dec)))
    (hn : (h.map Prod.fst).Nodup) :
    ((dictInsert k v h).map Prod.fst).Nodup := by
  rw [dictInsert_map_fst]
  by_cases hmem : k ∈ h.map Prod.fst
  · simpa [hmem] using hn
  · simp only [hmem, if_false]
    simp [List.nodup_append, hn, hmem]

/-- Python dict read `d[k]` on the insertion-ordered association list. -/
def lookupDate (d : ℕ) : List (ℕ × (Dec × Dec × Dec)) → Option (Dec × Dec × Dec)
  | [] => none
  | (k, v) :: t => if d = k then some v else lookupDate d t

theorem lookupDate_dictInsert (k : ℕ) (v : Dec × Dec × Dec)
    (h : List (ℕ × (Dec × Dec × Dec))) (d : ℕ) :
    lookupDate d (dictInsert k v h) =
      if d = k then some v else lookupDate d h := by
  induction h with
  | nil => simp [dictInsert, lookupDate]
  | cons p t ih =>
      obtain ⟨k', v'⟩ := p
      by_cases hk : k' = k
      · subst hk
        by_cases hd : d = k' <;> simp [dictInsert, lookupDate, hd]
      · simp only [dictInsert, if_neg hk]
        by_cases hd : d = k'
        · have hdk : ¬ d = k := fun hh => hk (hd.symm.trans hh)
          simp [lookupDate, hd, hdk, hk]
        · simp [lookupDate, hd, ih]

end ObservationsParser

/-- **C10.** The geolocation history built from the metadata member
contains exactly one entry per distinct `effective_date`: its key list
has no duplicates, and the value looked up for a date is the coordinate
triple of the *last* metadata row carrying that date — a later row with
the same valid-from date replaces the earlier one's triple, and
geolocation resolution sees only that last row. -/
theorem C10_history_one_entry_per_date
    (rows : List ObservationsParser.GeoRow) :
    ((ObservationsParser.parse_lat_lon_history rows).map Prod.fst).Nodup ∧
    ∀ d : ℕ,
      ObservationsParser.lookupDate d (ObservationsParser.parse_lat_lon_history rows) =
        ((rows.filter (fun r => r.von_datum = d)).getLast?).map
          (fun r => (r.geogrLaenge, r.geogrBreite, r.stationshoehe)) := by
  induction rows using List.reverseRecOn with
  | nil => simp [ObservationsParser.parse_lat_lon_history, ObservationsParser.lookupDate]
  | append_singleton rows r ih =>
      have hfold : ObservationsParser.parse_lat_lon_history (rows ++ [r]) =
          ObservationsParser.dictInsert r.von_datum
            (r.geogrLaenge, r.geogrBreite, r.stationshoehe)
            (ObservationsParser.parse_lat_lon_history rows) := by
        simp [ObservationsParser.parse_lat_lon_history, List.foldl_append]
      constructor
      · rw [hfold]
        exact ObservationsParser.dictInsert_nodup _ _ _ ih.1
      · intro d
        rw [hfold, ObservationsParser.lookupDate_dictInsert, List.filter_append]
        by_cases hd : r.von_datum = d
        · simp [hd, ih.2 d]
        · have hd' : ¬ d = r.von_datum := fun h => hd h.symm
          simp [hd, hd', ih.2 d]

/-! ### C8: no metadata member ⇒ the parse fails before any record -/

namespace ObservationsParser

/-- A member filename that matches the metadata pattern
`Metadaten_Geographie_<digits>.txt` exactly (nonempty digit run, nothing
after the extension). -/
def isExactGeoName (fn : String) : Bool :=
  let pre := "Metadaten_Geographie_".data
  pre.isPrefixOf fn.data &&
    (let rest := fn.data.drop pre.length
     let digits := rest.takeWhile Char.isDigit
     decide (digits ≠ []) && decide (rest.drop digits.length = ".txt".data))

theorem matchGeoName_digits {fn : List Char} {d : List Char}
    (h : matchGeoName fn = some d) : d ≠ [] ∧ d.all Char.isDigit = true := by
  simp only [matchGeoName] at h
  split at h
  · split at h
    · rename_i hcond
      obtain ⟨hne, -⟩ := hcond
      injection h with h
      subst h
      refine ⟨hne, ?_⟩
      rw [List.all_eq_true]
      intro c hc
      exact List.mem_takeWhile_imp hc
    · exact absurd h (by simp)
  · exact absurd h (by simp)

theorem isExactGeoName_build {d : List Char} (hne : d ≠ [])
    (hdig : d.all Char.isDigit = true) :
    isExactGeoName ⟨"Metadaten_Geographie_".data ++ d ++ ".txt".data⟩ = true := by
  have htake : List.takeWhile Char.isDigit (d ++ ".txt".data) = d := by
    rw [List.takeWhile_append]
    have hself : List.takeWhile Char.isDigit d = d := by
      rw [List.takeWhile_eq_self_iff]
      intro c hc
      exact (List.all_eq_true.mp hdig) c hc
    rw [hself]
    simp [List.takeWhile]
  unfold isExactGeoName
  simp only [List.append_assoc]
  rw [Bool.and_eq_true]
  constructor
  · rw [List.isPrefixOf_iff_prefix]
    exact List.prefix_append _ _
  · simp only [List.drop_left, htake]
    simp [hne, List.drop_left]

end ObservationsParser

/-- **C8.** For every observation archive in which no member filename
matches the metadata pattern `Metadaten_Geographie_<digits>.txt`, the
parse fails (with the error embedding the spec's `ParseError`: either the
`ValueError` of `parse_station_id` or, when `re.match`'s unanchored tail
admits a near-miss member name, the `KeyError` of opening the absent
exact member) — in both cases before emitting any record. -/
theorem C8_no_metadata_member_fails
    (parseElems : ObservationsParser.ObsRow →
      Except String (List (String × Option Dec)))
    (zf : ObservationsParser.ObsArchive)
    (h : ∀ fn ∈ zf.namelist, ObservationsParser.isExactGeoName fn = false) :
    ∃ e, ObservationsParser.parse parseElems zf = .error e := by
  cases hfind : zf.namelist.findSome? (fun fn => ObservationsParser.matchGeoName fn.data) with
  | none =>
      refine ⟨"ValueError", ?_⟩
      simp [ObservationsParser.parse, ObservationsParser.parse_station_id, hfind]
  | some d =>
      refine ⟨"KeyError", ?_⟩
      obtain ⟨hne, hdig⟩ := ObservationsParser.matchGeoName_digits
        (List.exists_of_findSome?_eq_some hfind).choose_spec.2
      have hnotmem :
          ("Metadaten_Geographie_" ++ (⟨d⟩ : String) ++ ".txt") ∉ zf.namelist := by
        intro hmem
        have hfalse := h _ hmem
        have htrue : ObservationsParser.isExactGeoName
            ("Metadaten_Geographie_" ++ (⟨d⟩ : String) ++ ".txt") = true := by
          have hdata : ("Metadaten_Geographie_" ++ (⟨d⟩ : String) ++ ".txt").data =
              "Metadaten_Geographie_".data ++ d ++ ".txt".data := by
            simp [String.data_append]
          have := ObservationsParser.isExactGeoName_build hne hdig
          rw [show (⟨"Metadaten_Geographie_".data ++ d ++ ".txt".data⟩ : String) =
              ("Metadaten_Geographie_" ++ (⟨d⟩ : String) ++ ".txt") from
            String.ext hdata.symm] at this
          exact this
        rw [htrue] at hfalse
        simp at hfalse
      simp [ObservationsParser.parse, ObservationsParser.parse_station_id, hfind, hnotmem]

/-- Witness for C8 at a concrete archive: a zip whose only members are a
product file and an unrelated text file has no metadata member, and the
parse is an error. -/
theorem C8_no_metadata_member_fails_witness :
    (∀ fn ∈ ["produkt_ff_x.txt", "readme.txt"],
      ObservationsParser.isExactGeoName fn = false) ∧
    ∃ e, ObservationsParser.parse WindObservationsParser.parse_elements
      { namelist := ["produkt_ff_x.txt", "readme.txt"],
        geoRows := [], productRows := [] } = .error e :=
  ⟨by decide,
   C8_no_metadata_member_fails WindObservationsParser.parse_elements
     { namelist := ["produkt_ff_x.txt", "readme.txt"],
       geoRows := [], productRows := [] }
     (by decide)⟩

/-! ### C7: the five profiles' unit conversions on present values -/

/-- **C7.** For every present (non-sentinel) observation value: the
temperature profile adds exactly 273.15 after the (empty, hence identity)
generic scale/offset step and rounds to two decimals; the pressure
profile multiplies the raw hPa value by exactly 100 (and applies the
generic two-decimal rounding of the conversion loop); the sunshine
profile likewise multiplies the raw minutes value by exactly 60; wind and
precipitation values are emitted unconverted (not even rounded). -/
theorem C7_unit_conversions
    (ts : ℕ) (sT sP sS sF sD sR : String) (vT vP vS vF vD vR : Dec)
    (hT1 : pyStrip sT ≠ "-999") (hT2 : pyFloat sT = some vT)
    (hP1 : pyStrip sP ≠ "-999") (hP2 : pyFloat sP = some vP)
    (hS1 : pyStrip sS ≠ "-999") (hS2 : pyFloat sS = some vS)
    (hF1 : pyStrip sF ≠ "-999") (hF2 : pyFloat sF = some vF)
    (hD1 : pyStrip sD ≠ "-999") (hD2 : pyFloat sD = some vD)
    (hR1 : pyStrip sR ≠ "-999") (hR2 : pyFloat sR = some vR) :
    TemperatureObservationsParser.parse_elements ⟨ts, [("TT_TU", sT)]⟩ =
      .ok [("temperature", some (pyRound2 (vT.add ⟨27315, 2⟩)))] ∧
    PressureObservationsParser.parse_elements ⟨ts, [("  P0", sP)]⟩ =
      .ok [("pressure_msl", some (pyRound2 (vP.mulInt 100)))] ∧
    SunshineObservationsParser.parse_elements ⟨ts, [("SD_SO", sS)]⟩ =
      .ok [("sunshine", some (pyRound2 (vS.mulInt 60)))] ∧
    WindObservationsParser.parse_elements ⟨ts, [("   F", sF), ("   D", sD)]⟩ =
      .ok [("wind_speed", some vF), ("wind_direction", some vD)] ∧
    PrecipitationObservationsParser.parse_elements ⟨ts, [("  R1", sR)]⟩ =
      .ok [("precipitation", some vR)] := by
  refine ⟨?_, ?_, ?_, ?_, ?_⟩
  · simp [TemperatureObservationsParser.parse_elements,
      ObservationsParser.temperature_parse_elements,
      ObservationsParser.parse_elements, ObservationsParser.parseElementDict,
      ObservationsParser.parseElementCell, ObservationsParser.rowCell,
      ObservationsParser.applyConversions, ObservationsParser.dictUpdate,
      List.find?, hT1, hT2]
  · simp [PressureObservationsParser.parse_elements,
      PressureObservationsParser.elements,
      PressureObservationsParser.conversion_factors,
      ObservationsParser.parse_elements, ObservationsParser.parseElementDict,
      ObservationsParser.parseElementCell, ObservationsParser.rowCell,
      ObservationsParser.applyConversions, ObservationsParser.dictUpdate,
      List.find?, hP1, hP2]
  · simp [SunshineObservationsParser.parse_elements,
      SunshineObservationsParser.elements,
      SunshineObservationsParser.conversion_factors,
      ObservationsParser.parse_elements, ObservationsParser.parseElementDict,
      ObservationsParser.parseElementCell, ObservationsParser.rowCell,
      ObservationsParser.applyConversions, ObservationsParser.dictUpdate,
      List.find?, hS1, hS2]
  · simp [WindObservationsParser.parse_elements,
      WindObservationsParser.elements,
      ObservationsParser.parse_elements, ObservationsParser.parseElementDict,
      ObservationsParser.parseElementCell, ObservationsParser.rowCell,
      ObservationsParser.applyConversions, ObservationsParser.dictUpdate,
      List.find?, hF1, hF2, hD1, hD2]
  · simp [PrecipitationObservationsParser.parse_elements,
      PrecipitationObservationsParser.elements,
      ObservationsParser.parse_elements, ObservationsParser.parseElementDict,
      ObservationsParser.parseElementCell, ObservationsParser.rowCell,
      ObservationsParser.applyConversions, ObservationsParser.dictUpdate,
      List.find?, hR1, hR2]

/-- Witness for C7 at concrete cells: `13.7` °C becomes 286.85 K,
`990.00` hPa becomes 99000.0 Pa, `10` minutes becomes 600 seconds, and
wind/precipitation cells pass through unchanged. -/
theorem C7_unit_conversions_witness :
    TemperatureObservationsParser.parse_elements ⟨0, [("TT_TU", "13.7")]⟩ =
      .ok [("temperature", some (pyRound2 ((⟨137, 1⟩ : Dec).add ⟨27315, 2⟩)))] ∧
    PressureObservationsParser.parse_elements ⟨0, [("  P0", "990.00")]⟩ =
      .ok [("pressure_msl", some (pyRound2 ((⟨99000, 2⟩ : Dec).mulInt 100)))] ∧
    SunshineObservationsParser.parse_elements ⟨0, [("SD_SO", "10")]⟩ =
      .ok [("sunshine", some (pyRound2 ((⟨10, 0⟩ : Dec).mulInt 60)))] ∧
    WindObservationsParser.parse_elements ⟨0, [("   F", "1.6"), ("   D", "80")]⟩ =
      .ok [("wind_speed", some ⟨16, 1⟩), ("wind_direction", some ⟨80, 0⟩)] ∧
    PrecipitationObservationsParser.parse_elements ⟨0, [("  R1", "0.3")]⟩ =
      .ok [("precipitation", some ⟨3, 1⟩)] :=
  C7_unit_conversions 0 "13.7" "990.00" "10" "1.6" "80" "0.3"
    ⟨137, 1⟩ ⟨99000, 2⟩ ⟨10, 0⟩ ⟨16, 1⟩ ⟨80, 0⟩ ⟨3, 1⟩
    (by decide) rfl (by decide) rfl (by decide) rfl
    (by decide) rfl (by decide) rfl (by decide) rfl

/-! ### C3: per-element series must match the timestamp axis length -/

namespace MOSMIXParser

theorem parseColumns_ok_series {sel : PlacemarkSel} {T : ℕ}
    {l : List (String × String)} {cols : List (String × List (Option Dec))}
    (h : parseColumns sel T l = .ok cols) :
    ∀ el col, (el, col) ∈ l →
      ∃ s vals, extractForecast sel.forecasts el = some s ∧
        parseValueList (valueTokens s) = .ok vals ∧ vals.length = T := by
  induction l generalizing cols with
  | nil => intro el col hmem; simp at hmem
  | cons p rest ih =>
      obtain ⟨el0, col0⟩ := p
      intro el col hmem
      simp only [parseColumns] at h
      split at h
      · exact absurd h (by simp)
      · rename_i vals hc
        split at h
        · exact absurd h (by simp)
        · rename_i restCols hrest
          rcases List.mem_cons.mp hmem with heq | hmem'
          · injection heq with h1 h2
            subst h1
            simp only [parseColumn] at hc
            split at hc
            · exact absurd hc (by simp)
            · rename_i str hex
              split at hc
              · exact absurd hc (by simp)
              · rename_i vals0 hv
                split at hc
                · rename_i hlen
                  exact ⟨str, vals0, hex, hv, hlen⟩
                · exact absurd hc (by simp)
          · exact ih hrest el col hmem'

theorem parseColumns_mismatch_error {sel : PlacemarkSel} {T : ℕ}
    {l : List (String × String)} {el col : String} {s : String}
    {vals : List (Option Dec)}
    (hmem : (el, col) ∈ l)
    (hex : extractForecast sel.forecasts el = some s)
    (hv : parseValueList (valueTokens s) = .ok vals)
    (hlen : vals.length ≠ T) :
    ∃ e, parseColumns sel T l = .error e := by
  induction l with
  | nil => simp at hmem
  | cons p rest ih =>
      obtain ⟨el0, col0⟩ := p
      rcases List.mem_cons.mp hmem with heq | hmem'
      · injection heq with h1 h2
        subst h1
        have hcol : parseColumn sel el T = .error "AssertionError" := by
          simp [parseColumn, hex, hv, hlen]
        exact ⟨"AssertionError", by simp [parseColumns, hcol]⟩
      · cases hc : parseColumn sel el0 T with
        | error e => exact ⟨e, by simp [parseColumns, hc]⟩
        | ok vals0 =>
            obtain ⟨e, he⟩ := ih hmem'
            exact ⟨e, by simp [parseColumns, hc, he]⟩

end MOSMIXParser

/-- **C3.** For every station block and every one of the six configured
element codes: whenever `parse_station` succeeds, the parsed per-element
series has exactly the length of the shared timestamp axis; and whenever
some configured element's parsed series has a different length, the
station's extraction aborts with an error (the `assert` — values are
never truncated or padded). -/
theorem C3_series_length_matches_axis
    (sel : MOSMIXParser.PlacemarkSel) (ts : List ℕ) (src : String) :
    (∀ recs, MOSMIXParser.parse_station sel ts src = .ok recs →
      ∀ el col, (el, col) ∈ MOSMIXParser.ELEMENTS →
        ∃ s vals, MOSMIXParser.extractForecast sel.forecasts el = some s ∧
          MOSMIXParser.parseValueList (MOSMIXParser.valueTokens s) = .ok vals ∧
          vals.length = ts.length) ∧
    (∀ el col s vals, (el, col) ∈ MOSMIXParser.ELEMENTS →
      MOSMIXParser.extractForecast sel.forecasts el = some s →
      MOSMIXParser.parseValueList (MOSMIXParser.valueTokens s) = .ok vals →
      vals.length ≠ ts.length →
      ∃ e, MOSMIXParser.parse_station sel ts src = .error e) := by
  constructor
  · intro recs h el col hmem
    simp only [MOSMIXParser.parse_station] at h
    split at h
    · rename_i c1 c2 c3 hsplit
      cases hcols : MOSMIXParser.parseColumns sel ts.length MOSMIXParser.ELEMENTS with
      | error e => rw [hcols] at h; exact absurd h (by simp)
      | ok cols => exact MOSMIXParser.parseColumns_ok_series hcols el col hmem
    · exact absurd h (by simp)
  · intro el col s vals hmem hex hv hlen
    obtain ⟨e, he⟩ := MOSMIXParser.parseColumns_mismatch_error hmem hex hv hlen
    simp only [MOSMIXParser.parse_station]
    split
    · exact ⟨e, by rw [he]⟩
    · exact ⟨"ValueError", rfl⟩

/-- A concrete station block (the repository's fixture station 01028)
with a one-element series per code, used to witness the MOSMIX claims. -/
def sampleStation : MOSMIXParser.PlacemarkSel :=
  { name := "01028",
    coordinates := "19.02,74.52,16.0",
    forecasts := [("TTT", "-12.7"), ("DD", "330"), ("FF", "8.75"),
                  ("RR1c", "0.1"), ("SunD1", "-"), ("PPPP", "99000")] }

/-- The record `parse_station` emits from `sampleStation` for timestamp
`t` under source string `src`. -/
def sampleRecord (src : String) (t : ℕ) : Record :=
  { observation_type := "forecast",
    source := src,
    station_id := "01028",
    lat := ⟨1902, 2⟩, lon := ⟨7452, 2⟩, height := ⟨160, 1⟩,
    timestamp := t,
    quantities := [("temperature", some ⟨-127, 1⟩),
                   ("wind_direction", some ⟨330, 0⟩),
                   ("wind_speed", some ⟨875, 2⟩),
                   ("precipitation", some ⟨1, 1⟩),
                   ("sunshine", none),
                   ("pressure_msl", some ⟨99000, 0⟩)] }

/-- Witness for C3: on `sampleStation` with a one-point axis the parse
succeeds and each series has the axis length; on a two-point axis the
same one-element series is a length mismatch and the station aborts with
an error. -/
theorem C3_series_length_matches_axis_witness :
    (∃ s vals,
      MOSMIXParser.extractForecast sampleStation.forecasts "TTT" = some s ∧
      MOSMIXParser.parseValueList (MOSMIXParser.valueTokens s) = .ok vals ∧
      vals.length = [7].length) ∧
    (∃ e, MOSMIXParser.parse_station sampleStation [7, 8] "S" = .error e) :=
  ⟨(C3_series_length_matches_axis sampleStation [7] "S").1
      [sampleRecord "S" 7] rfl "TTT" "temperature" (by decide),
   (C3_series_length_matches_axis sampleStation [7, 8] "S").2
      "TTT" "temperature" "-12.7" [some ⟨-127, 1⟩] (by decide) rfl rfl
      (by decide)⟩

/-! ### C4: a successful forecast parse emits the full station × timestamp grid -/

namespace MOSMIXParser

theorem parseColumns_ok_lengths {sel : PlacemarkSel} {T : ℕ}
    {l : List (String × String)} {cols : List (String × List (Option Dec))}
    (h : parseColumns sel T l = .ok cols) :
    ∀ c ∈ cols, c.2.length = T := by
  induction l generalizing cols with
  | nil =>
      simp only [parseColumns] at h
      injection h with h
      subst h
      intro c hc
      simp at hc
  | cons p rest ih =>
      obtain ⟨el0, col0⟩ := p
      simp only [parseColumns] at h
      split at h
      · exact absurd h (by simp)
      · rename_i vals hc
        split at h
        · exact absurd h (by simp)
        · rename_i restCols hrest
          injection h with h
          subst h
          intro c hcmem
          rcases List.mem_cons.mp hcmem with rfl | hmem'
          · simp only [parseColumn] at hc
            split at hc
            · exact absurd hc (by simp)
            · rename_i str hex
              split at hc
              · exact absurd hc (by simp)
              · rename_i vals0 hv
                split at hc
                · rename_i hlen
                  injection hc with hc
                  subst hc
                  exact hlen
                · exact absurd hc (by simp)
          · exact ih hrest c hmem'

theorem zipRecords_map (base : ℕ → Record) :
    ∀ (ts : List ℕ) (cols : List (String × List (Option Dec))),
    (∀ c ∈ cols, c.2.length = ts.length) →
    (zipRecords base ts cols).map (fun r => (r.station_id, r.timestamp)) =
      ts.map (fun t => ((base t).station_id, t)) := by
  intro ts
  induction ts with
  | nil => intro cols h; simp [zipRecords]
  | cons t ts' ih =>
      intro cols h
      have hne : cols.all (fun c => c.2 ≠ []) = true := by
        rw [List.all_eq_true]
        intro c hc
        have hlen := h c hc
        rw [decide_eq_true_eq]
        intro hnil
        rw [hnil] at hlen
        simp at hlen
      simp only [zipRecords, hne, if_true]
      simp only [List.map_cons]
      congr 1
      exact ih (cols.map fun c => (c.1, c.2.tail)) (by
        intro c hc
        rcases List.mem_map.mp hc with ⟨c0, hc0, rfl⟩
        have := h c0 hc0
        simp [List.length_tail, this])

theorem parse_station_ok_shape {sel : PlacemarkSel} {ts : List ℕ}
    {src : String} {recs : List Record}
    (h : parse_station sel ts src = .ok recs) :
    recs.map (fun r => (r.station_id, r.timestamp)) =
      ts.map (fun t => (sel.name, t)) := by
  simp only [parse_station] at h
  split at h
  · rename_i c1 c2 c3
    split at h
    · exact absurd h (by simp)
    · rename_i cols hcols
      split at h
      · rename_i lat lon height
        injection h with h
        subst h
        simpa using zipRecords_map _ ts cols (parseColumns_ok_lengths hcols)
      · exact absurd h (by simp)
  · exact absurd h (by simp)

theorem parseStations_ok_shape {ts : List ℕ} {src : String}
    {l : List PlacemarkSel} {recs : List Record}
    (h : parseStations ts src l = .ok recs) :
    recs.map (fun r => (r.station_id, r.timestamp)) =
      l.flatMap (fun sb => ts.map (fun t => (sb.name, t))) := by
  induction l generalizing recs with
  | nil =>
      simp only [parseStations] at h
      injection h with h
      subst h
      simp
  | cons sel rest ih =>
      simp only [parseStations] at h
      split at h
      · exact absurd h (by simp)
      · rename_i recs1 h1
        split at h
        · exact absurd h (by simp)
        · rename_i recs2 h2
          injection h with h
          subst h
          rw [List.map_append, parse_station_ok_shape h1, ih h2,
            List.flatMap_cons]

end MOSMIXParser

/-- **C4.** Every successfully parsed forecast bulletin with `S` station
blocks and `T` timestamps yields exactly `S × T` records; projecting each
record to its station id and timestamp gives precisely the grid of
stations in document order, each paired with the full timestamp axis in
order — one record per (station, timestamp index) pair. -/
theorem C4_forecast_record_grid
    (doc : MOSMIXParser.MOSMIXDocument) (recs : List Record)
    (h : MOSMIXParser.parse doc = .ok recs) :
    recs.length = doc.placemarks.length * doc.timestamps.length ∧
    recs.map (fun r => (r.station_id, r.timestamp)) =
      doc.placemarks.flatMap
        (fun sb => doc.timestamps.map (fun t => (sb.name, t))) := by
  have hshape := MOSMIXParser.parseStations_ok_shape h
  refine ⟨?_, hshape⟩
  have hlen : recs.length =
      (recs.map (fun r => (r.station_id, r.timestamp))).length := by simp
  rw [hlen, hshape, List.length_flatMap]
  have hrep : List.map (List.length ∘ fun sb =>
        doc.timestamps.map (fun t => (sb.name, t))) doc.placemarks =
      List.replicate doc.placemarks.length doc.timestamps.length := by
    rw [List.eq_replicate_iff]
    constructor
    · simp
    · intro b hb
      rcases List.mem_map.mp hb with ⟨sb, -, rfl⟩
      simp
  rw [hrep, List.sum_replicate, smul_eq_mul]

/-- Witness for C4: a one-station, one-timestamp document yields the
1 × 1 grid. -/
theorem C4_forecast_record_grid_witness :
    [sampleRecord "MOSMIX:t" 7].length = [sampleStation].length * [7].length ∧
    [sampleRecord "MOSMIX:t" 7].map (fun r => (r.station_id, r.timestamp)) =
      [sampleStation].flatMap (fun sb => [7].map (fun t => (sb.name, t))) :=
  C4_forecast_record_grid
    { timestamps := [7], productId := "MOSMIX", issueTime := "t",
      placemarks := [sampleStation] }
    [sampleRecord "MOSMIX:t" 7] rfl

/-! ### C5: geolocation resolution for rows at or after the first entry -/

namespace ObservationsParser

/-- The spec's resolution rule: the coordinate triple of the *last*
history entry whose `effective_date` is `≤` the row timestamp. -/
def lastLE (history : List (ℕ × (Dec × Dec × Dec))) (ts : ℕ) :
    Option (Dec × Dec × Dec) :=
  ((history.filter (fun p => p.1 ≤ ts)).getLast?).map Prod.snd

/-- The value of the geolocation scan when the loop variables start
bound to `v`. -/
def resolveD (history : List (ℕ × (Dec × Dec × Dec))) (ts : ℕ)
    (v : Dec × Dec × Dec) : Dec × Dec × Dec :=
  match history with
  | [] => v
  | (date, w) :: t => if date > ts then v else resolveD t ts w

theorem resolve_some (history : List (ℕ × (Dec × Dec × Dec))) (ts : ℕ)
    (v : Dec × Dec × Dec) :
    resolve history ts (some v) = some (resolveD history ts v) := by
  induction history generalizing v with
  | nil => rfl
  | cons p t ih =>
      obtain ⟨d, w⟩ := p
      simp only [resolve, resolveD]
      by_cases hd : d > ts
      · simp [hd]
      · simp [hd, ih]

theorem getLastD_map_snd (l : List (ℕ × (Dec × Dec × Dec)))
    (x : ℕ × (Dec × Dec × Dec)) :
    (l.getLast?.getD x).2 = (l.map Prod.snd).getLastD x.2 := by
  induction l generalizing x with
  | nil => rfl
  | cons y t ih =>
      rw [List.getLast?_cons, Option.getD_some, List.map_cons,
        List.getLastD_cons]
      exact ih y

theorem resolveD_eq_getLastD (history : List (ℕ × (Dec × Dec × Dec)))
    (hs : List.Pairwise (fun p q => p.1 ≤ q.1) history) (ts : ℕ) :
    ∀ v, resolveD history ts v =
      ((history.filter (fun p => p.1 ≤ ts)).map Prod.snd).getLastD v := by
  induction history with
  | nil => intro v; rfl
  | cons p t ih =>
      obtain ⟨d, w⟩ := p
      rw [List.pairwise_cons] at hs
      obtain ⟨hall, ht⟩ := hs
      intro v
      by_cases hd : d > ts
      · have hcond : ¬ (decide (d ≤ ts) = true) := by
          simp only [decide_eq_true_eq]
          omega
        have hfilter : t.filter (fun p => p.1 ≤ ts) = [] := by
          rw [List.filter_eq_nil_iff]
          intro a ha
          have := hall a ha
          simp only [decide_eq_true_eq]
          omega
        simp only [resolveD, if_pos hd, List.filter_cons]
        rw [if_neg hcond, hfilter]
        rfl
      · have hcond : decide (d ≤ ts) = true := by
          simp only [decide_eq_true_eq]
          omega
        simp only [resolveD, if_neg hd, List.filter_cons]
        rw [if_pos hcond, List.map_cons, List.getLastD_cons]
        exact ih ht w

theorem resolve_sorted_eq_lastLE
    {history : List (ℕ × (Dec × Dec × Dec))} {d0 : ℕ} {v0 : Dec × Dec × Dec}
    {ts : ℕ}
    (hs : List.Pairwise (fun p q => p.1 ≤ q.1) history)
    (hh : history.head? = some (d0, v0)) (hd : d0 ≤ ts)
    (acc : Option (Dec × Dec × Dec)) :
    ∃ v, lastLE history ts = some v ∧ resolve history ts acc = some v := by
  cases history with
  | nil => simp at hh
  | cons p t =>
      rw [List.head?_cons] at hh
      injection hh with hh
      subst hh
      rw [List.pairwise_cons] at hs
      have hngt : ¬ (d0 > ts) := by omega
      have hcond : decide (d0 ≤ ts) = true := by
        simp only [decide_eq_true_eq]
        omega
      refine ⟨resolveD t ts v0, ?_, ?_⟩
      · rw [lastLE, List.filter_cons, if_pos hcond, List.getLast?_cons,
          resolveD_eq_getLastD t hs.2 ts v0]
        exact congrArg some (getLastD_map_snd _ _)
      · simp only [resolve, if_neg hngt]
        exact resolve_some t ts v0

theorem parseRecordsGo_ok
    (parseElems : ObsRow → Except String (List (String × Option Dec)))
    (station_id filename : String)
    {history : List (ℕ × (Dec × Dec × Dec))} {d0 : ℕ} {v0 : Dec × Dec × Dec}
    (hs : List.Pairwise (fun p q => p.1 ≤ q.1) history)
    (hh : history.head? = some (d0, v0)) :
    ∀ (rows : List ObsRow) (binding : Option (Dec × Dec × Dec))
      (recs : List Record),
    parseRecordsGo parseElems station_id filename history binding rows = .ok recs →
    recs.length = rows.length ∧
    ∀ k (hk : k < rows.length),
      d0 ≤ (rows.get ⟨k, hk⟩).mess_datum →
      ∃ (hk' : k < recs.length), ∃ v,
        lastLE history ((rows.get ⟨k, hk⟩).mess_datum) = some v ∧
        ((recs.get ⟨k, hk'⟩).lat, (recs.get ⟨k, hk'⟩).lon,
          (recs.get ⟨k, hk'⟩).height) = v ∧
        (recs.get ⟨k, hk'⟩).timestamp = (rows.get ⟨k, hk⟩).mess_datum := by
  intro rows
  induction rows with
  | nil =>
      intro binding recs h
      simp only [parseRecordsGo] at h
      injection h with h
      subst h
      refine ⟨rfl, ?_⟩
      intro k hk
      simp at hk
  | cons row rest ih =>
      intro binding recs h
      simp only [parseRecordsGo] at h
      split at h
      · exact absurd h (by simp)
      · rename_i lat lon height hres
        split at h
        · exact absurd h (by simp)
        · rename_i elems helems
          split at h
          · exact absurd h (by simp)
          · rename_i restRecs hrest
            injection h with h
            subst h
            obtain ⟨ihlen, ihk⟩ := ih _ _ hrest
            refine ⟨by simp [ihlen], ?_⟩
            intro k hk hd
            cases k with
            | zero =>
                have hd1 : d0 ≤ row.mess_datum := hd
                obtain ⟨v, hlast, hresolve⟩ :=
                  resolve_sorted_eq_lastLE hs hh hd1 binding
                rw [hres] at hresolve
                injection hresolve with hresolve
                exact ⟨Nat.succ_pos _, v, hlast, hresolve, rfl⟩
            | succ k' =>
                have hk2 : k' < rest.length := by
                  have := hk
                  simp only [List.length_cons] at this
                  omega
                rw [List.get_cons_succ] at hd
                obtain ⟨hk'', v, h1, h2, h3⟩ := ihk k' hk2 hd
                have hk3 : k' + 1 <
                    (restRecs.length + 1) := by omega
                refine ⟨by simpa using Nat.succ_lt_succ hk'', v, ?_, ?_, ?_⟩
                · rw [List.get_cons_succ]
                  exact h1
                · simp only [List.get_cons_succ]
                  exact h2
                · simp only [List.get_cons_succ]
                  exact h3

end ObservationsParser

/-- **C5.** For every observation product row whose timestamp is not
earlier than the first history entry's `effective_date` (given a history
in non-decreasing date order), the emitted record's geolocation triple
equals the triple of the *last* history entry whose `effective_date` is
`≤` the row timestamp (an entry whose date equals the timestamp is
applicable), and the record carries the row's timestamp. -/
theorem C5_geolocation_resolution
    (parseElems : ObservationsParser.ObsRow →
      Except String (List (String × Option Dec)))
    (zf : ObservationsParser.ObsArchive) (sid : String)
    (history : List (ℕ × (Dec × Dec × Dec))) (d0 : ℕ) (v0 : Dec × Dec × Dec)
    (recs : List Record) (k : ℕ)
    (hs : List.Pairwise (fun p q => p.1 ≤ q.1) history)
    (hh : history.head? = some (d0, v0))
    (hok : ObservationsParser.parse_records parseElems zf sid history = .ok recs)
    (hk : k < zf.productRows.length)
    (hd : d0 ≤ (zf.productRows.get ⟨k, hk⟩).mess_datum) :
    ∃ (hk' : k < recs.length), ∃ v,
      ObservationsParser.lastLE history
          ((zf.productRows.get ⟨k, hk⟩).mess_datum) = some v ∧
      ((recs.get ⟨k, hk'⟩).lat, (recs.get ⟨k, hk'⟩).lon,
        (recs.get ⟨k, hk'⟩).height) = v ∧
      (recs.get ⟨k, hk'⟩).timestamp = (zf.productRows.get ⟨k, hk⟩).mess_datum := by
  simp only [ObservationsParser.parse_records] at hok
  split at hok
  · rename_i filename hfilter
    exact (ObservationsParser.parseRecordsGo_ok parseElems sid filename hs hh
      zf.productRows none recs hok).2 k hk hd
  · exact absurd hok (by simp)

/-- The record emitted for the C5 witness row. -/
def c5Record : Record :=
  { observation_type := "recent",
    source := "Observations:Recent:produkt_ff_x.txt",
    station_id := "04911",
    lat := ⟨1, 0⟩, lon := ⟨2, 0⟩, height := ⟨3, 0⟩, timestamp := 150,
    quantities := [("wind_speed", some ⟨16, 1⟩),
                   ("wind_direction", some ⟨80, 0⟩)] }

/-- The two-entry history used by the C5 witness. -/
def c5History : List (ℕ × (Dec × Dec × Dec)) :=
  [(100, (⟨1, 0⟩, ⟨2, 0⟩, ⟨3, 0⟩)), (200, (⟨4, 0⟩, ⟨5, 0⟩, ⟨6, 0⟩))]

/-- Witness for C5: with the history `[(100, A), (200, B)]` a row at
instant 150 resolves to `A` — the last entry effective at or before
150. -/
theorem C5_geolocation_resolution_witness :
    ∃ (hk' : 0 < [c5Record].length), ∃ v,
      ObservationsParser.lastLE c5History 150 = some v ∧
      (([c5Record].get ⟨0, hk'⟩).lat, ([c5Record].get ⟨0, hk'⟩).lon,
        ([c5Record].get ⟨0, hk'⟩).height) = v ∧
      ([c5Record].get ⟨0, hk'⟩).timestamp = 150 :=
  C5_geolocation_resolution WindObservationsParser.parse_elements
    { namelist := ["Metadaten_Geographie_04911.txt", "produkt_ff_x.txt"],
      geoRows := [],
      productRows := [⟨150, [("   F", "1.6"), ("   D", "80")]⟩] }
    "04911" c5History 100 (⟨1, 0⟩, ⟨2, 0⟩, ⟨3, 0⟩) [c5Record] 0
    (by decide) rfl rfl (by decide) (by decide)

end Brightsky
